import Mathlib

/-!
Verification development for the uba-posgrados-chatbot repository.

Shallow embedding of the four source files:
  * database.py          — record store schema and helper operations
  * scraper_complete.py  — page fetcher with retry policy
  * ai_engine.py         — retrieval engine, prompt assembler, answer generation
  * main.py              — raw-text scrape cache, question endpoint

Modelling conventions:
  * Machine integers are Nat.  Time is measured in whole minutes; the source
    uses datetime with a 24-hour TTL, modelled as ttl_hours * 60 minutes.
  * Network I/O is an oracle argument: a function from URL to the cleaned page
    text (Option String, none = non-200 status or exception), or from attempt
    index to the attempt's outcome.  HTML parsing/cleaning (BeautifulSoup) is
    outside the embedding; the oracle yields the already-cleaned text.
  * The SQLAlchemy columns `duracion_años : Float` is modelled with Nat (no
    claim depends on fractional durations); `ultima_actualizacion` and row
    timestamps are omitted (no claim reads them).
  * SQL `field ILIKE '%q%'` is modelled as "lowercased field contains the
    lowercased q as a contiguous substring" (the source never passes SQL
    wildcard characters relevant to the claims).
  * Counters returned alongside results (number of refresh attempts, number
    of fetch attempts, list of backoff sleeps) instrument effects the source
    performs (calling scrape_uba, looping, time.sleep) so theorems can speak
    about them.
-/

/-- Bool prefix test on character lists. -/
def charsPrefix : List Char → List Char → Bool
  | [], _ => true
  | _ :: _, [] => false
  | a :: as, b :: bs => a == b && charsPrefix as bs

/-- Bool contiguous-sublist test on character lists. -/
def charsInfix (sub : List Char) : List Char → Bool
  | [] => charsPrefix sub []
  | b :: bs => charsPrefix sub (b :: bs) || charsInfix sub bs

/-- Python's `sub in s` on strings: contiguous substring containment. -/
def strContainsSub (s sub : String) : Bool :=
  charsInfix sub.toList s.toList

/-- Python str.lower / SQL LOWER on the relevant (ASCII-cased) inputs,
computed on the character list. -/
def strLower (s : String) : String :=
  ⟨s.data.map Char.toLower⟩

/-- Python str.upper on the relevant (ASCII-cased) inputs. -/
def strUpper (s : String) : String :=
  ⟨s.data.map Char.toUpper⟩

/-- Python slicing `s[:n]`, computed on the character list. -/
def strTake (s : String) (n : Nat) : String :=
  ⟨s.data.take n⟩

/-- Python str.strip, computed on the character list. -/
def strTrim (s : String) : String :=
  ⟨((s.data.dropWhile Char.isWhitespace).reverse.dropWhile
      Char.isWhitespace).reverse⟩

/-- Python `sep.join(parts)`. -/
def joinSep (sep : String) : List String → String
  | [] => ""
  | [a] => a
  | a :: b :: rest => a ++ sep ++ joinSep sep (b :: rest)

/-! ## database.py -/

/-- database.py lines 14-47, class Programa (table `programas`). -/
structure Programa where
  id : Nat
  tipo : String
  nombre : Option String := none
  nombre_corto : Option String := none
  url_principal : Option String := none
  director : Option String := none
  subdirector : Option String := none
  coordinador : Option String := none
  email : Option String := none
  telefono : Option String := none
  carga_horaria_total : Option Nat := none
  duracion_anos : Option Nat := none
  modalidad : Option String := none
  horario_cursada : Option String := none
  estructura_ciclos : Option String := none
  objetivos : Option String := none
  requisitos : Option String := none
  activo : Nat := 1
  deriving DecidableEq

/-- database.py lines 49-64, class Materia (table `materias`). -/
structure Materia where
  id : Nat
  programa_id : Nat
  nombre : Option String := none
  tipo : Option String := none
  area_tematica : Option String := none
  carga_horaria : Option Nat := none
  ciclo : Option String := none
  descripcion : Option String := none
  deriving DecidableEq

/-- database.py lines 66-76, class Consulta (analytics table `consultas`). -/
structure Consulta where
  pregunta : String
  respuesta : String
  programa_relacionado : Option String
  tiempo_respuesta_ms : Nat
  tokens_usados : Nat
  deriving DecidableEq

/-- The record store: the `programas` table plus the autoincrement counter. -/
structure DB where
  programas : List Programa
  nextId : Nat
  deriving DecidableEq

/-- The `datos` dict handed to `agregar_programa` (a Programa without id). -/
structure DatosPrograma where
  tipo : String
  nombre : Option String := none
  nombre_corto : Option String := none
  url_principal : Option String := none
  director : Option String := none
  subdirector : Option String := none
  coordinador : Option String := none
  email : Option String := none
  telefono : Option String := none
  carga_horaria_total : Option Nat := none
  duracion_anos : Option Nat := none
  modalidad : Option String := none
  horario_cursada : Option String := none
  estructura_ciclos : Option String := none
  objetivos : Option String := none
  requisitos : Option String := none
  activo : Nat := 1
  deriving DecidableEq

/-- `Programa(**datos)` with the autoincrement id assigned on insert. -/
def mkPrograma (id : Nat) (d : DatosPrograma) : Programa :=
  { id := id, tipo := d.tipo, nombre := d.nombre, nombre_corto := d.nombre_corto,
    url_principal := d.url_principal, director := d.director,
    subdirector := d.subdirector, coordinador := d.coordinador,
    email := d.email, telefono := d.telefono,
    carga_horaria_total := d.carga_horaria_total,
    duracion_anos := d.duracion_anos, modalidad := d.modalidad,
    horario_cursada := d.horario_cursada,
    estructura_ciclos := d.estructura_ciclos, objetivos := d.objetivos,
    requisitos := d.requisitos, activo := d.activo }

/-- database.py lines 104-118, `agregar_programa`: `session.add` followed by
`commit`, returning the new row's id.  A plain insert. -/
def agregar_programa (db : DB) (datos : DatosPrograma) : DB × Nat :=
  ({ programas := db.programas ++ [mkPrograma db.nextId datos],
     nextId := db.nextId + 1 },
   db.nextId)

/-- database.py lines 137-147, `registrar_consulta`: appends one Consulta row. -/
def registrar_consulta (log : List Consulta) (pregunta respuesta : String)
    (programa : Option String) (tiempo_ms tokens : Nat) : List Consulta :=
  log ++ [{ pregunta := pregunta, respuesta := respuesta,
            programa_relacionado := programa,
            tiempo_respuesta_ms := tiempo_ms, tokens_usados := tokens }]

/-! ## scraper_complete.py — fetch_url (lines 96-111) -/

/-- Outcome of one `session.get` attempt: an HTTP response with a status and
body, or a network-level exception (timeout, connection error). -/
inductive FetchAttempt where
  | resp (status : Nat) (html : String)
  | exn (msg : String)
  deriving DecidableEq

/-- Result of `fetch_url`, instrumented with the number of attempts consumed
and the list of `asyncio.sleep` backoff durations performed. -/
structure FetchResult where
  html : Option String
  status : Nat
  intentos : Nat
  backoffs : List Nat
  deriving DecidableEq

/-- The `for intento in range(3)` loop body of fetch_url.  The list argument
is the remaining attempt indices; falling off the loop returns (None, 0). -/
def fetch_url_loop (attempts : Nat → FetchAttempt) :
    List Nat → List Nat → FetchResult
  | backoffs, [] => { html := none, status := 0, intentos := 3, backoffs := backoffs }
  | backoffs, intento :: restantes =>
    match attempts intento with
    | FetchAttempt.resp s html =>
      if s = 200 then
        { html := some html, status := 200, intentos := intento + 1, backoffs := backoffs }
      else if s = 404 then
        { html := none, status := 404, intentos := intento + 1, backoffs := backoffs }
      else
        fetch_url_loop attempts backoffs restantes
    | FetchAttempt.exn _ =>
      if intento = 2 then
        { html := none, status := 0, intentos := intento + 1, backoffs := backoffs }
      else
        fetch_url_loop attempts (backoffs ++ [2]) restantes

/-- scraper_complete.py lines 96-111, `fetch_url`: up to 3 attempts. -/
def fetch_url (attempts : Nat → FetchAttempt) : FetchResult :=
  fetch_url_loop attempts [] [0, 1, 2]

/-! ## main.py — scrape cache (lines 42-120) -/

/-- main.py lines 35-40, the four configured UBA pages. -/
def URLS_UBA : List String :=
  ["https://www.derecho.uba.ar/academica/posgrados/maestrias.php",
   "https://www.derecho.uba.ar/academica/posgrados/carr_especializacion.php",
   "https://www.derecho.uba.ar/academica/posgrados/doctorado.php",
   "https://www.derecho.uba.ar/academica/posgrados/index.php"]

/-- main.py line 46, `ttl_hours`. -/
def ttl_hours : Nat := 24

/-- main.py lines 42-47, the module-level `scraping_cache` dict.
Timestamps are minutes since an arbitrary epoch. -/
structure ScrapeCache where
  data : String
  timestamp : Option Nat
  deriving DecidableEq

/-- main.py lines 58-62: the cache-validity check at the top of scrape_uba
(`data` truthy, `timestamp` set, age strictly under the TTL). -/
def cache_valido (now : Nat) (c : ScrapeCache) : Bool :=
  (c.data != "") &&
    match c.timestamp with
    | some t => decide (now - t < ttl_hours * 60)
    | none => false

/-- main.py lines 53-110, `scrape_uba`.  The fetch oracle returns the cleaned
page text (`texto_limpio`) for a 200 response, none for a non-200 status or
exception (both merely log and append nothing, lines 95-98).  The Bool flag
records whether a refresh (URL fetching) was actually performed.  The cache
is unconditionally overwritten at lines 106-107 when a refresh runs. -/
def scrape_uba (now : Nat) (fetch : String → Option String) (c : ScrapeCache) :
    String × ScrapeCache × Bool :=
  if cache_valido now c then
    (c.data, c, false)
  else
    let datos := URLS_UBA.filterMap (fun url =>
      (fetch url).map (fun texto =>
        "=== " ++ url ++ " ===\n" ++ strTake texto 8000))
    let contexto := joinSep "\n\n" datos
    (contexto, { data := contexto, timestamp := some now }, true)

/-- main.py lines 116-120, `get_context`: refreshes only when the cached data
is the empty string, then returns `scraping_cache["data"]`.  The Nat counts
the `scrape_uba` invocations (refresh attempts) made by this call. -/
def get_context (now : Nat) (fetch : String → Option String) (c : ScrapeCache) :
    String × ScrapeCache × Nat :=
  if c.data = "" then
    let r := scrape_uba now fetch c
    (r.2.1.data, r.2.1, 1)
  else
    (c.data, c, 0)

/-! ## ai_engine.py — retrieval engine and prompt assembler -/

/-- ai_engine.py lines 29-39, the legal-domain keyword table (insertion
order of the Python dict is iteration order). -/
def areas : List (String × List String) :=
  [("penal", ["penal", "criminal", "delito", "pena"]),
   ("civil", ["civil", "contratos", "obligaciones"]),
   ("laboral", ["trabajo", "laboral", "empleado", "sindicato"]),
   ("familia", ["familia", "divorcio", "adopción", "alimentos"]),
   ("tributario", ["tributario", "impuesto", "fiscal", "afip"]),
   ("internacional", ["internacional", "tratados", "extranjero"]),
   ("administrativo", ["administrativo", "estado", "público"]),
   ("procesal", ["procesal", "proceso", "juicio"]),
   ("ambiental", ["ambiental", "ambiente", "ecología"])]

/-- ai_engine.py lines 41-46: the first area (in table order) one of whose
keywords occurs in the lowercased query; the loop breaks at the first hit. -/
def detectar_area (query_lower : String) : Option String :=
  (areas.find? (fun ar => ar.2.any (fun kw => strContainsSub query_lower kw))).map
    Prod.fst

/-- `field ILIKE '%query%'`: the lowercased field contains the lowercased
query; a NULL column never matches. -/
def ilike_contains (field : Option String) (query : String) : Bool :=
  match field with
  | some f => strContainsSub (strLower f) (strLower query)
  | none => false

/-- ai_engine.py lines 49-55: the direct-match disjunction over nombre,
director and coordinador. -/
def direct_match (query : String) (p : Programa) : Bool :=
  ilike_contains p.nombre query || ilike_contains p.director query ||
    ilike_contains p.coordinador query

/-- ai_engine.py lines 49-55: the first query of buscar_programa_relevante. -/
def fase_directa (query : String) (ps : List Programa) : List Programa :=
  ps.filter (fun p => direct_match query p)

/-- ai_engine.py lines 58-61: the area-fallback query
(`Programa.nombre.ilike(f'%{area_detectada}%')`). -/
def fase_area (query_lower : String) (ps : List Programa) : List Programa :=
  match detectar_area query_lower with
  | some a => ps.filter (fun p => ilike_contains p.nombre a)
  | none => []

/-- ai_engine.py lines 49-61 combined: direct phase, then area fallback when
the direct phase found nothing. -/
def seleccionar (query : String) (ps : List Programa) : List Programa :=
  if (fase_directa query ps).isEmpty then fase_area (strLower query) ps
  else fase_directa query ps

/-- One entry of `contexto['materias']` (ai_engine.py lines 86-94). -/
structure MateriaCtx where
  nombre : Option String
  tipo : Option String
  horas : Option Nat
  area : Option String
  deriving DecidableEq

/-- The structured context bundle built at ai_engine.py lines 72-96. -/
structure Contexto where
  nombre : Option String
  tipo : String
  director : Option String
  subdirector : Option String
  coordinador : Option String
  email : Option String
  duracion : String
  carga_horaria : String
  modalidad : String
  horario : String
  objetivos : String
  requisitos : String
  materias : List MateriaCtx
  total_materias : Nat
  deriving DecidableEq

/-- Python `x or default` on an optional string column (None and the empty
string are both falsy). -/
def pyOr (x : Option String) (default : String) : String :=
  match x with
  | some s => if s = "" then default else s
  | none => default

/-- ai_engine.py lines 72-96: the `contexto` dict for one program and its
(unbounded) owned subject list; subjects are capped to 30 in the bundle,
while `total_materias` is the length of the full list. -/
def mkContexto (programa : Programa) (materias : List Materia) : Contexto :=
  { nombre := programa.nombre,
    tipo := programa.tipo,
    director := programa.director,
    subdirector := programa.subdirector,
    coordinador := programa.coordinador,
    email := programa.email,
    duracion :=
      match programa.duracion_anos with
      | some n => if n = 0 then "No especificada" else toString n ++ " años"
      | none => "No especificada",
    carga_horaria :=
      match programa.carga_horaria_total with
      | some n => if n = 0 then "No especificada" else toString n ++ " horas"
      | none => "No especificada",
    modalidad := pyOr programa.modalidad "No especificada",
    horario := pyOr programa.horario_cursada "No especificado",
    objetivos := pyOr programa.objetivos "No especificados",
    requisitos := pyOr programa.requisitos "[]",
    materias := (materias.take 30).map (fun m =>
      { nombre := m.nombre, tipo := m.tipo, horas := m.carga_horaria,
        area := m.area_tematica }),
    total_materias := materias.length }

/-- ai_engine.py lines 19-98, `buscar_programa_relevante`: two-phase search,
first result wins, subjects of the winner loaded by `programa_id`. -/
def buscar_programa_relevante (query : String) (ps : List Programa)
    (ms : List Materia) : Option Contexto :=
  match seleccionar query ps with
  | [] => none
  | programa :: _ =>
    some (mkContexto programa (ms.filter (fun m => m.programa_id == programa.id)))

/-- Python f-string rendering of a possibly-None value. -/
def renderOptS (x : Option String) : String :=
  match x with
  | some s => s
  | none => "None"

/-- ai_engine.py lines 117-120: one line of `materias_texto` (name, then
hours and kind tags when truthy). -/
def linea_materia (m : MateriaCtx) : String :=
  "   - " ++ renderOptS m.nombre ++
    (match m.horas with
     | some h => if h = 0 then "" else " (" ++ toString h ++ "hs)"
     | none => "") ++
    (match m.tipo with
     | some t => if t = "" then "" else " [" ++ t ++ "]"
     | none => "")

/-- ai_engine.py line 119: only the first 20 bundle subjects are rendered. -/
def lineas_materias (contexto : Contexto) : List String :=
  (contexto.materias.take 20).map linea_materia

/-- ai_engine.py lines 117-120, the joined `materias_texto` string. -/
def materias_texto (contexto : Contexto) : String :=
  joinSep "\n" (lineas_materias contexto)

/-- ai_engine.py lines 105-114: the unscoped prompt template. -/
def prompt_sin_contexto (pregunta : String) : String :=
  "Sos un asistente especializado en los posgrados de la Facultad de Derecho de la UBA.\n\n" ++
  "Pregunta del usuario: " ++ pregunta ++ "\n\n" ++
  "Respondé de forma clara y precisa. Si no tenés información específica sobre lo que pregunta, indicalo claramente y sugiere contactar a la Dirección de Posgrado.\n\n" ++
  "Email general de Posgrado: inscripcionesposgrado@derecho.uba.ar\n"

/-- ai_engine.py lines 122-158: the scoped prompt template. -/
def prompt_escopado (pregunta : String) (contexto : Contexto) : String :=
  "Sos un asistente especializado en los posgrados de la Facultad de Derecho de la UBA.\n\n" ++
  "INFORMACIÓN DEL PROGRAMA CONSULTADO:\n\n" ++
  "**" ++ renderOptS contexto.nombre ++ "** (" ++ strUpper contexto.tipo ++ ")\n\n" ++
  "📋 DATOS GENERALES:\n" ++
  "- Director: " ++ renderOptS contexto.director ++ "\n" ++
  "- Subdirector: " ++ renderOptS contexto.subdirector ++ "\n" ++
  "- Coordinador: " ++ renderOptS contexto.coordinador ++ "\n" ++
  "- Email de contacto: " ++ renderOptS contexto.email ++ "\n" ++
  "- Duración: " ++ contexto.duracion ++ "\n" ++
  "- Carga horaria total: " ++ contexto.carga_horaria ++ "\n" ++
  "- Modalidad: " ++ contexto.modalidad ++ "\n" ++
  "- Horario de cursada: " ++ contexto.horario ++ "\n\n" ++
  "📚 PLAN DE ESTUDIOS (" ++ toString contexto.total_materias ++ " materias en total):\n" ++
  materias_texto contexto ++ "\n\n" ++
  "🎯 OBJETIVOS:\n" ++
  (if contexto.objetivos = "" then "No especificados" else strTake contexto.objetivos 500) ++
  "\n\n" ++
  "✅ REQUISITOS DE ADMISIÓN:\n" ++
  (if contexto.requisitos = "" then "No especificados" else strTake contexto.requisitos 500) ++
  "\n\n---\n\n" ++
  "PREGUNTA DEL USUARIO: " ++ pregunta ++ "\n\n" ++
  "INSTRUCCIONES:\n" ++
  "1. Respondé usando SOLO la información que te proporcioné arriba\n" ++
  "2. Sé específico: cita carga horaria, nombres de materias, contactos\n" ++
  "3. Si el usuario pregunta algo que NO está en los datos, decilo claramente\n" ++
  "4. Formato: claro, estructurado, bullets cuando corresponda\n" ++
  "5. Incluí siempre el email de contacto relevante al final\n\n" ++
  "Respondé ahora de forma directa y útil:"

/-- ai_engine.py lines 100-160, `construir_prompt_con_contexto`. -/
def construir_prompt_con_contexto (pregunta : String) (contexto : Option Contexto) :
    String :=
  match contexto with
  | none => prompt_sin_contexto pregunta
  | some c => prompt_escopado pregunta c

/-- ai_engine.py lines 164-208, `generar_respuesta`.  The generation service
is an oracle from prompt to either (respuesta, total tokens) or the raised
exception's message `str(e)`.  The except branch (lines 206-208) returns the
error text embedded in the answer, None for the program, and 0 tokens. -/
def generar_respuesta (pregunta : String) (ps : List Programa) (ms : List Materia)
    (llm : String → Except String (String × Nat)) : String × Option String × Nat :=
  let contexto := buscar_programa_relevante pregunta ps ms
  let programa_relacionado := contexto.bind (fun c => c.nombre)
  let prompt := construir_prompt_con_contexto pregunta contexto
  match llm prompt with
  | Except.ok (respuesta, tokens) => (respuesta, programa_relacionado, tokens)
  | Except.error e => ("Error al procesar tu pregunta: " ++ e, none, 0)

/-! ## main.py — ask_ai and the question endpoint (lines 122-163, 543-561) -/

/-- main.py lines 127-146: the system prompt with the context capped at
12000 characters. -/
def system_prompt_ask_ai (contexto : String) : String :=
  "Eres un asistente experto en posgrados de la Facultad de Derecho de la Universidad de Buenos Aires (UBA).\n\n" ++
  "Tu trabajo es ayudar a estudiantes y profesionales a encontrar información sobre:\n" ++
  "- Maestrías\n- Especializaciones  \n- Doctorados\n- Directores de programas\n- Requisitos de inscripción\n- Contactos\n\n" ++
  "INFORMACIÓN DISPONIBLE:\n" ++ strTake contexto 12000 ++ "\n\n" ++
  "INSTRUCCIONES:\n" ++
  "- Responde SOLO con información del contexto proporcionado\n" ++
  "- Si no sabes algo, di \"No tengo esa información en mi base de datos actual\"\n" ++
  "- Sé conciso pero completo\n" ++
  "- Usa formato legible (bullets, números)\n" ++
  "- Si mencionas contactos, incluye emails/teléfonos si los hay\n" ++
  "- Siempre sé amable y profesional"

/-- main.py lines 122-163, `ask_ai`: on a generation failure the caught
exception is replaced by a fixed generic message. -/
def ask_ai (pregunta contexto : String)
    (llm : String → String → Except String String) : String :=
  match llm (system_prompt_ask_ai contexto) pregunta with
  | Except.ok r => r
  | Except.error _ => "⚠️ Error al procesar tu pregunta. Por favor, intenta nuevamente."

/-- main.py lines 543-561, the `/q` endpoint `consultar`: validation, then
get_context, then ask_ai.  The analytics log is threaded through to make the
absence of writes provable; `Except.error 400` models the HTTPException. -/
def consultar (pregunta : String) (now : Nat) (fetch : String → Option String)
    (llm : String → String → Except String String) (c : ScrapeCache)
    (log : List Consulta) : Except Nat String × ScrapeCache × List Consulta :=
  if (strTrim pregunta).length < 3 then
    (Except.error 400, c, log)
  else
    let r := get_context now fetch c
    let respuesta := ask_ai pregunta r.1 llm
    (Except.ok respuesta, r.2.1, log)

/-! ## Concrete fixtures used by witnesses and counterexamples -/

/-- A program whose director is a known name. -/
def pDonna : Programa :=
  { id := 1, tipo := "maestria", nombre := some "Maestria en Derecho X",
    nombre_corto := some "mae_der_x", director := some "Edgardo Donna" }

/-- A program whose name carries the `penal` domain tag. -/
def pPenal : Programa :=
  { id := 2, tipo := "maestria", nombre := some "Maestría en Derecho Penal",
    nombre_corto := some "mae_der_penal" }

/-- Scrape-cycle output for the penal program (no id yet). -/
def dPenal : DatosPrograma :=
  { tipo := "maestria", nombre := some "Maestría en Derecho Penal",
    nombre_corto := some "mae_der_penal" }

/-- A store that already holds one record with identity `mae_der_penal`. -/
def dbPenal : DB :=
  (agregar_programa { programas := [], nextId := 1 } dPenal).1

/-! ## Theorems -/

/-- Characterisation of a successful List.find?: the hit satisfies the
predicate and everything before it fails the predicate. -/
theorem find?_eq_some_split {α : Type} (f : α → Bool) :
    ∀ (l : List α) (x : α), l.find? f = some x →
      f x = true ∧ ∃ l₁ l₂, l = l₁ ++ x :: l₂ ∧ ∀ y ∈ l₁, f y = false := by
  intro l
  induction l with
  | nil => intro x h; simp [List.find?] at h
  | cons a as ih =>
    intro x h
    cases hfa : f a with
    | true =>
      rw [List.find?_cons_of_pos _ hfa] at h
      cases h
      exact ⟨hfa, [], as, rfl, by simp⟩
    | false =>
      rw [List.find?_cons_of_neg _ (by simp [hfa])] at h
      obtain ⟨hx, l₁, l₂, hsplit, hprev⟩ := ih x h
      refine ⟨hx, a :: l₁, l₂, by rw [hsplit]; rfl, ?_⟩
      intro y hy
      rcases List.mem_cons.mp hy with rfl | hy'
      · exact hfa
      · exact hprev y hy'

/-- C1 (corrected): the direct-match substring test runs in the opposite
direction from the claim — a record matches when the whole question is a
case-insensitive substring of its name, director, or coordinator field.
Whenever the question is contained in some record's director field, the
direct phase is non-empty and retrieval returns the context of the first
direct-phase match in store order, with no domain keyword needed. -/
theorem c1_direct_match_reversed (q : String) (ps : List Programa)
    (ms : List Materia) (p : Programa) (hp : p ∈ ps)
    (hd : ilike_contains p.director q = true) :
    ∃ p0 rest, fase_directa q ps = p0 :: rest ∧ direct_match q p0 = true ∧
      buscar_programa_relevante q ps ms =
        some (mkContexto p0 (ms.filter (fun m => m.programa_id == p0.id))) := by
  have hmem : p ∈ fase_directa q ps := by
    unfold fase_directa
    rw [List.mem_filter]
    exact ⟨hp, by simp [direct_match, hd]⟩
  cases hfd : fase_directa q ps with
  | nil => rw [hfd] at hmem; simp at hmem
  | cons p0 rest =>
    have hm0 : p0 ∈ fase_directa q ps := by
      rw [hfd]; exact List.mem_cons_self _ _
    have hdm0 : direct_match q p0 = true := by
      unfold fase_directa at hm0
      simpa using (List.mem_filter.mp hm0).2
    refine ⟨p0, rest, rfl, hdm0, ?_⟩
    unfold buscar_programa_relevante seleccionar
    rw [hfd]
    simp

/-- C1 witness: the question "Donna" is a substring of the stored director
"Edgardo Donna", so retrieval returns that program's context. -/
theorem c1_direct_match_reversed_witness :
    ∃ p0 rest, fase_directa "Donna" [pDonna] = p0 :: rest ∧
      direct_match "Donna" p0 = true ∧
      buscar_programa_relevante "Donna" [pDonna] [] =
        some (mkContexto p0 (List.filter (fun m => m.programa_id == p0.id) [])) :=
  c1_direct_match_reversed "Donna" [pDonna] [] pDonna (List.mem_cons_self _ _)
    (by decide)

/-- C1 counterexample: the question contains the known director's exact name
as a case-insensitive substring and no domain keyword, yet retrieval returns
none — the code checks containment in the reverse direction. -/
theorem c1_counterexample :
    pDonna.director = some "Edgardo Donna" ∧
    strContainsSub (strLower "quien es Edgardo Donna") (strLower "Edgardo Donna") = true ∧
    detectar_area (strLower "quien es Edgardo Donna") = none ∧
    buscar_programa_relevante "quien es Edgardo Donna" [pDonna] [] = none := by
  refine ⟨rfl, by decide, by decide, by decide⟩

/-- C2 (corrected): get_context never consults the TTL.  Any cache with
non-empty data is returned with zero refresh attempts regardless of age,
and only a cache with empty data triggers exactly one refresh attempt. -/
theorem c2_cache_no_ttl_check (now : Nat) (fetch : String → Option String)
    (c : ScrapeCache) :
    (c.data ≠ "" → get_context now fetch c = (c.data, c, 0)) ∧
    (c.data = "" → (get_context now fetch c).2.2 = 1) := by
  constructor
  · intro h; simp [get_context, h]
  · intro h; simp [get_context, h]

/-- C2 witness: a populated cache aged 25 hours is served unrefreshed; an
empty cache triggers exactly one refresh attempt. -/
theorem c2_cache_no_ttl_check_witness :
    get_context 1500 (fun _ => some "nuevo")
        { data := "viejo", timestamp := some 0 } =
      ("viejo", { data := "viejo", timestamp := some 0 }, 0) ∧
    (get_context 0 (fun _ => some "nuevo")
        { data := "", timestamp := none }).2.2 = 1 :=
  ⟨(c2_cache_no_ttl_check 1500 (fun _ => some "nuevo")
      { data := "viejo", timestamp := some 0 }).1 (by decide),
   (c2_cache_no_ttl_check 0 (fun _ => some "nuevo")
      { data := "", timestamp := none }).2 rfl⟩

/-- C2 counterexample: a populated cache value aged 25 hours (past the
24-hour TTL) yields zero refresh attempts from get_context, not the claimed
exactly one. -/
theorem c2_counterexample :
    (get_context 1500 (fun _ => some "texto nuevo")
        { data := "texto viejo", timestamp := some 0 }).2.2 = 0 ∧
    ttl_hours * 60 ≤ 1500 - 0 ∧ (0 : Nat) ≠ 1 := by
  refine ⟨rfl, by decide, by decide⟩

/-- C3 (corrected): when a refresh actually runs (the cache-validity check
fails) and every configured URL fetch fails, scrape_uba overwrites the
previously cached value with the empty concatenation and serves the empty
string to the caller; no error is raised. -/
theorem c3_refresh_failure_clears_cache (now : Nat)
    (fetch : String → Option String) (c : ScrapeCache)
    (hvalid : cache_valido now c = false) (hfail : ∀ url, fetch url = none) :
    scrape_uba now fetch c = ("", { data := "", timestamp := some now }, true) := by
  simp [scrape_uba, hvalid, hfail, URLS_UBA, joinSep]

/-- C3 witness: a stale populated cache plus an all-failing fetch ends with
the cache overwritten by the empty string. -/
theorem c3_refresh_failure_clears_cache_witness :
    scrape_uba 1500 (fun _ => none) { data := "datos viejos", timestamp := some 0 } =
      ("", { data := "", timestamp := some 1500 }, true) :=
  c3_refresh_failure_clears_cache 1500 (fun _ => none)
    { data := "datos viejos", timestamp := some 0 } (by decide) (fun _ => rfl)

/-- C3 counterexample: the previously cached value "cacheado previo" is not
retained — after a refresh in which every URL fails, the cache data becomes
the empty string and the empty string is served. -/
theorem c3_counterexample :
    scrape_uba 2000 (fun _ => none)
        { data := "cacheado previo", timestamp := some 0 } =
      ("", { data := "", timestamp := some 2000 }, true) ∧
    "cacheado previo" ≠ "" := by
  refine ⟨rfl, by decide⟩

/-- C4 (corrected): the serving path appends nothing to the analytics log on
any branch; registrar_consulta, which appends exactly one row per call, is
never invoked by consultar. -/
theorem c4_serving_path_never_logs (pregunta : String) (now : Nat)
    (fetch : String → Option String) (llm : String → String → Except String String)
    (c : ScrapeCache) (log : List Consulta) :
    (consultar pregunta now fetch llm c log).2.2 = log ∧
    ∀ (log2 : List Consulta) (preg resp : String) (programa : Option String)
      (t tk : Nat),
      (registrar_consulta log2 preg resp programa t tk).length = log2.length + 1 := by
  constructor
  · unfold consultar
    split <;> rfl
  · intro log2 preg resp programa t tk
    simp [registrar_consulta]

/-- C4 counterexample: a concrete valid question is served successfully while
the analytics log stays empty — zero entries appended, not exactly one. -/
theorem c4_counterexample :
    (consultar "¿Qué maestrías ofrecen?" 0 (fun _ => some "contenido")
        (fun _ _ => Except.ok "respuesta generada")
        { data := "", timestamp := none } []).1 = Except.ok "respuesta generada" ∧
    (consultar "¿Qué maestrías ofrecen?" 0 (fun _ => some "contenido")
        (fun _ _ => Except.ok "respuesta generada")
        { data := "", timestamp := none } []).2.2.length = 0 := by
  exact ⟨rfl, rfl⟩

/-- C5 (corrected): agregar_programa is a plain insert under a fresh
autoincrement id — it appends one record and never replaces an existing one,
so identities are not kept unique. -/
theorem c5_agregar_always_inserts (db : DB) (datos : DatosPrograma) :
    (agregar_programa db datos).1.programas =
      db.programas ++ [mkPrograma db.nextId datos] ∧
    (agregar_programa db datos).1.programas.length = db.programas.length + 1 := by
  refine ⟨rfl, ?_⟩
  simp [agregar_programa]

/-- C5 counterexample: storing a record whose nombre_corto already exists
leaves two records with that identity in the store — not at most one. -/
theorem c5_counterexample :
    ((agregar_programa dbPenal dPenal).1.programas.filter
        (fun p => p.nombre_corto == some "mae_der_penal")).length = 2 ∧
    ¬ ((agregar_programa dbPenal dPenal).1.programas.filter
        (fun p => p.nombre_corto == some "mae_der_penal")).length ≤ 1 := by
  refine ⟨rfl, by decide⟩

/-- C6 (confirmed): an HTTP 404 yields an absent page immediately after one
attempt, with no retries and no backoff; two network failures followed by a
200 yield the successful page content on the third attempt, with a fixed
2-second backoff before each retry that follows a network failure. -/
theorem c6_fetch_retry_policy (a b : Nat → FetchAttempt) (nf page m0 m1 : String)
    (ha : a 0 = FetchAttempt.resp 404 nf)
    (hb0 : b 0 = FetchAttempt.exn m0) (hb1 : b 1 = FetchAttempt.exn m1)
    (hb2 : b 2 = FetchAttempt.resp 200 page) :
    fetch_url a = { html := none, status := 404, intentos := 1, backoffs := [] } ∧
    fetch_url b =
      { html := some page, status := 200, intentos := 3, backoffs := [2, 2] } := by
  constructor
  · simp [fetch_url, fetch_url_loop, ha]
  · simp [fetch_url, fetch_url_loop, hb0, hb1, hb2]

/-- C6 witness: concrete oracles — an immediate 404, and a timeout-timeout-
200 sequence. -/
theorem c6_fetch_retry_policy_witness :
    fetch_url (fun _ => FetchAttempt.resp 404 "no existe") =
      { html := none, status := 404, intentos := 1, backoffs := [] } ∧
    fetch_url (fun n => if n < 2 then FetchAttempt.exn "timeout"
        else FetchAttempt.resp 200 "pagina") =
      { html := some "pagina", status := 200, intentos := 3, backoffs := [2, 2] } :=
  c6_fetch_retry_policy (fun _ => FetchAttempt.resp 404 "no existe")
    (fun n => if n < 2 then FetchAttempt.exn "timeout"
      else FetchAttempt.resp 200 "pagina")
    "no existe" "pagina" "timeout" "timeout" rfl rfl rfl rfl

/-- C7 (corrected): when every attempt yields a non-200, non-404 status,
fetch_url retries through all 3 attempts (with no backoff) and returns an
absent page with the constant status 0 — the observed status is discarded,
not recorded. -/
theorem c7_non200_returns_status_zero (att : Nat → FetchAttempt)
    (h : ∀ i, i < 3 → ∃ s html, att i = FetchAttempt.resp s html ∧
      s ≠ 200 ∧ s ≠ 404) :
    fetch_url att = { html := none, status := 0, intentos := 3, backoffs := [] } := by
  obtain ⟨s0, h0, e0, n0a, n0b⟩ := h 0 (by omega)
  obtain ⟨s1, h1, e1, n1a, n1b⟩ := h 1 (by omega)
  obtain ⟨s2, h2, e2, n2a, n2b⟩ := h 2 (by omega)
  simp [fetch_url, fetch_url_loop, e0, e1, e2, n0a, n0b, n1a, n1b, n2a, n2b]

/-- C7 witness: three straight HTTP 500 responses produce (None, 0). -/
theorem c7_non200_returns_status_zero_witness :
    fetch_url (fun _ => FetchAttempt.resp 500 "error") =
      { html := none, status := 0, intentos := 3, backoffs := [] } :=
  c7_non200_returns_status_zero (fun _ => FetchAttempt.resp 500 "error")
    (fun i _ => ⟨500, "error", rfl, by decide, by decide⟩)

/-- C7 counterexample: with every attempt returning HTTP 500, fetch_url
reports status 0, not the observed 500 of the final attempt. -/
theorem c7_counterexample :
    fetch_url (fun _ => FetchAttempt.resp 500 "error interno") =
      { html := none, status := 0, intentos := 3, backoffs := [] } ∧
    (500 : Nat) ≠ 0 := by
  refine ⟨rfl, by decide⟩

/-- C8 (corrected): on a generation failure, ai_engine's generar_respuesta
does return a zero token count and no matched program, but its answer text
embeds the raw error message after a fixed prefix; main.py's ask_ai is the
path that returns a fixed generic degraded answer independent of the error. -/
theorem c8_error_paths (pregunta : String) (ps : List Programa)
    (ms : List Materia) (e contexto : String) :
    generar_respuesta pregunta ps ms (fun _ => Except.error e) =
      ("Error al procesar tu pregunta: " ++ e, none, 0) ∧
    ask_ai pregunta contexto (fun _ _ => Except.error e) =
      "⚠️ Error al procesar tu pregunta. Por favor, intenta nuevamente." :=
  ⟨rfl, rfl⟩

/-- C8 counterexample: with a generation failure whose message is "boom",
generar_respuesta's answer contains the raw internal error message. -/
theorem c8_counterexample :
    generar_respuesta "hola" [] [] (fun _ => Except.error "boom") =
      ("Error al procesar tu pregunta: boom", none, 0) ∧
    strContainsSub "Error al procesar tu pregunta: boom" "boom" = true := by
  refine ⟨rfl, by decide⟩

/-- C9 (confirmed): when the direct phase matches nothing, the detected area
is the first table entry (in table order) with a keyword contained in the
lowercased question, and retrieval selects the first store record whose name
contains that domain tag — a record whose name does contain the tag. -/
theorem c9_area_fallback (q a : String) (ps : List Programa) (ms : List Materia)
    (p0 : Programa) (rest : List Programa)
    (hdm : fase_directa q ps = [])
    (harea : detectar_area (strLower q) = some a)
    (hfind : ps.filter (fun p => ilike_contains p.nombre a) = p0 :: rest) :
    buscar_programa_relevante q ps ms =
      some (mkContexto p0 (ms.filter (fun m => m.programa_id == p0.id))) ∧
    ilike_contains p0.nombre a = true ∧
    ∃ l₁ l₂ kws, areas = l₁ ++ (a, kws) :: l₂ ∧
      kws.any (fun kw => strContainsSub (strLower q) kw) = true ∧
      ∀ ar ∈ l₁, ar.2.any (fun kw => strContainsSub (strLower q) kw) = false := by
  refine ⟨?_, ?_, ?_⟩
  · unfold buscar_programa_relevante seleccionar fase_area
    rw [hdm, harea]
    simp [hfind]
  · have hm0 : p0 ∈ ps.filter (fun p => ilike_contains p.nombre a) := by
      rw [hfind]; exact List.mem_cons_self _ _
    simpa using (List.mem_filter.mp hm0).2
  · unfold detectar_area at harea
    obtain ⟨pr, hpr, hfst⟩ := Option.map_eq_some'.mp harea
    obtain ⟨hpred, l₁, l₂, hsplit, hprev⟩ := find?_eq_some_split _ _ _ hpr
    obtain ⟨a', kws⟩ := pr
    cases hfst
    exact ⟨l₁, l₂, kws, hsplit, hpred, hprev⟩

/-- C9 witness: the question "tengo una pregunta sobre delitos" has no
direct match against the single-record store, the keyword "delito" selects
the penal area, and the program named "Maestría en Derecho Penal" is
returned. -/
theorem c9_area_fallback_witness :
    buscar_programa_relevante "tengo una pregunta sobre delitos" [pPenal] [] =
      some (mkContexto pPenal
        (List.filter (fun m => m.programa_id == pPenal.id) [])) ∧
    ilike_contains pPenal.nombre "penal" = true ∧
    ∃ l₁ l₂ kws, areas = l₁ ++ ("penal", kws) :: l₂ ∧
      kws.any (fun kw => strContainsSub
        (strLower "tengo una pregunta sobre delitos") kw) = true ∧
      ∀ ar ∈ l₁, ar.2.any (fun kw => strContainsSub
        (strLower "tengo una pregunta sobre delitos") kw) = false :=
  c9_area_fallback "tengo una pregunta sobre delitos" "penal" [pPenal] []
    pPenal [] (by decide) (by decide) (by decide)

/-- C10 (confirmed): the prompt assembler renders only the first 20 subjects
of the bundle (itself capped at the first 30 of the owned list), so at most
20 lines are enumerated, while the rendered total-subject figure
total_materias equals the true owned-subject count. -/
theorem c10_prompt_subject_caps (p : Programa) (ms : List Materia) :
    lineas_materias (mkContexto p ms) =
      ((ms.take 20).map (fun m =>
        ({ nombre := m.nombre, tipo := m.tipo, horas := m.carga_horaria,
           area := m.area_tematica } : MateriaCtx))).map linea_materia ∧
    (lineas_materias (mkContexto p ms)).length = min ms.length 20 ∧
    (lineas_materias (mkContexto p ms)).length ≤ 20 ∧
    (mkContexto p ms).materias.length = min ms.length 30 ∧
    (mkContexto p ms).total_materias = ms.length := by
  have hq : (mkContexto p ms).materias.take 20 =
      (ms.take 20).map (fun m =>
        ({ nombre := m.nombre, tipo := m.tipo, horas := m.carga_horaria,
           area := m.area_tematica } : MateriaCtx)) := by
    show ((ms.take 30).map _).take 20 = _
    rw [← List.map_take, List.take_take]
    norm_num
  have hlen : (lineas_materias (mkContexto p ms)).length = min ms.length 20 := by
    unfold lineas_materias
    rw [hq]
    simp [List.length_take]
    omega
  refine ⟨?_, hlen, ?_, ?_, rfl⟩
  · unfold lineas_materias
    rw [hq]
  · rw [hlen]; omega
  · show ((ms.take 30).map _).length = min ms.length 30
    simp [List.length_take]
    omega
